import Mathlib

/-!
Verification of the SupervIA ai-service core: the chat tool-calling loop
(`src/controllers/ops-assistant.controller.js`), the OpenAI service wrapper
(`src/services/openai.service.js`), the in-memory response cache
(`src/config/redis.js`) and its administration surface
(`src/controllers/cache.controller.js`), embedded shallowly.

Modelling conventions:
* JS objects become structures; a field the source never sets is modelled
  explicitly (with its JS-falsy default) so that "the field is absent" is a
  provable statement rather than a typing accident.
* `JSON.stringify` / `JSON.parse` round trips on cached values are modelled as
  the identity; the MD5 hex digest used for cache keys is kept as an explicit
  function parameter `hash`.
* External collaborators (the OpenAI SDK, the axios-backed tool executors) are
  oracles passed in as parameters, as the spec treats them.
* French string constants are reproduced with typographic apostrophes.
-/

namespace SVIA

/-- One OpenAI tool call payload: the `toolCall.function` object. -/
structure ToolCallFn where
  name : String
  arguments : String
deriving DecidableEq

/-- An engine-requested tool invocation (`responseMessage.tool_calls[i]`). -/
structure ToolCall where
  id : String
  function : ToolCallFn
deriving DecidableEq

/-- A chat message object as pushed onto a session history by the controller:
role, optional text content, optional tool-call requests (assistant role),
optional correlation id and tool name (tool role). -/
structure Msg where
  role : String
  content : Option String := none
  tool_calls : List ToolCall := []
  tool_call_id : Option String := none
  name : Option String := none
deriving DecidableEq

/-- `response.choices[i].message` of a raw OpenAI completion. -/
structure OAIMsg where
  content : Option String := none
  tool_calls : List ToolCall := []
deriving DecidableEq

/-- `response.choices[i]` of a raw OpenAI completion. -/
structure Choice where
  message : OAIMsg
deriving DecidableEq

/-- The object `OpenAIService.callOpenAI` resolves with.  The success path
(openai.service.js lines 107-114) sets exactly `content`, `choices`, `model`,
`usage`, `timestamp`, `agentType`; the fallback path (lines 269-328) sets
exactly `content` and `fallback`.  The top-level `tool_calls` and `cached`
fields are modelled explicitly (defaulting to their JS-falsy values) because
the chat controller reads them (`responseMessage.tool_calls`,
`responseMessage.cached`) although no code path in the service ever sets
them. -/
structure CallResult where
  content : Option String := none
  choices : List Choice := []
  model : Option String := none
  usage : Option Nat := none
  timestamp : Option Nat := none
  agentType : Option String := none
  fallback : Bool := false
  tool_calls : List ToolCall := []
  cached : Bool := false
deriving DecidableEq

/-! ## The in-memory cache replacing Redis (`src/config/redis.js`) -/

/-- The `memoryCache` `Map`: an association list from keys to stored values
(`JSON.stringify`/`JSON.parse` of stored values modelled as the identity). -/
abbrev CacheState := List (String × CallResult)

def cacheLookup (st : CacheState) (k : String) : Option CallResult :=
  (st.find? (fun p => p.1 == k)).map (fun p => p.2)

def cacheErase (st : CacheState) (k : String) : CacheState :=
  st.filter (fun p => p.1 != k)

/-- `redisClient.setEx(key, ttl, value)`: stores the value; the `ttl` argument
is DISCARDED -- entries never expire in memory mode (the source's own comment
on `ttl()` reads "Pas d'expiration en mode mémoire"). -/
def redisSetEx (st : CacheState) (k : String) (_ttlSeconds : Nat) (v : CallResult) : CacheState :=
  (k, v) :: cacheErase st k

/-- `redisClient.get(key)`. -/
def redisGet (st : CacheState) (k : String) : Option CallResult :=
  cacheLookup st k

/-- `redisClient.del(key)` for one key: new state plus deleted-entry count. -/
def redisDel (st : CacheState) (k : String) : CacheState × Nat :=
  if (cacheLookup st k).isSome then (cacheErase st k, 1) else (st, 0)

/-- Helper for the JS regex test below: `sub` occurs as a contiguous block. -/
def listHasInfix (sub : List Char) : List Char → Bool
  | [] => sub.isEmpty
  | a :: as => sub.isPrefixOf (a :: as) || listHasInfix sub as

/-- JS `String.prototype.includes` (also the effect of testing an unanchored
regex made of plain characters against a string). -/
def strIncludes (s sub : String) : Bool :=
  listHasInfix sub.data s.data

/-- `redisClient.keys('ai:*')`: the simulated client builds the regex from
`pattern.replace('*', '.*')`, here `/ai:.*/` -- an UNANCHORED regex -- and
keeps every stored key it matches, i.e. every key containing `"ai:"` anywhere,
not only keys starting with it. -/
def redisKeysAiStar (st : CacheState) : List String :=
  (st.map (fun p => p.1)).filter (fun k => strIncludes k "ai:")

/-- `aiCache.generateCacheKey(prompt, agentType)`: `ai:<agentType>:<md5 hex>`;
the digest is the `hash` parameter. -/
def generateCacheKey (hash : String → String) (prompt : String) (agentType : String) : String :=
  "ai:" ++ agentType ++ ":" ++ hash prompt

/-- `aiCache.get(key)`: read plus JSON.parse (modelled as identity). -/
def aiCacheGet (st : CacheState) (k : String) : Option CallResult :=
  redisGet st k

/-- `aiCache.set(key, data, ttlSeconds)`: JSON.stringify plus `setEx`. -/
def aiCacheSet (st : CacheState) (k : String) (v : CallResult) (ttlSeconds : Nat) : CacheState :=
  redisSetEx st k ttlSeconds v

/-- `aiCache.flush()`: fetches `keys('ai:*')` and deletes each of them. -/
def aiCacheFlush (st : CacheState) : CacheState :=
  (redisKeysAiStar st).foldl (fun s k => (redisDel s k).1) st

/-- Reading the memory cache at a clock instant `now`: the read is independent
of the clock, because `setEx` discards its TTL and `get` performs no expiry
check. -/
def aiCacheGetAt (st : CacheState) (_now : Nat) (k : String) : Option CallResult :=
  aiCacheGet st k

/-- Outcome of `CacheController.deleteKey`. -/
inductive DeleteKeyOutcome where
  | rejected
  | deleted
  | notFound
deriving DecidableEq

/-- JS `String.prototype.startsWith`. -/
def strStartsWith (s pre : String) : Bool :=
  pre.data.isPrefixOf s.data

/-- `CacheController.deleteKey`: rejects any key not starting with `"ai:"`
with a 400 before touching the store; otherwise `redisClient.del(key)`. -/
def deleteKey (st : CacheState) (key : String) : CacheState × DeleteKeyOutcome :=
  if !(strStartsWith key "ai:") then (st, .rejected)
  else
    let r := redisDel st key
    if 0 < r.2 then (r.1, .deleted) else (r.1, .notFound)

/-! ## The OpenAI service wrapper (`src/services/openai.service.js`) -/

/-- Outcome of one raw OpenAI SDK call (`client.chat.completions.create`):
either a completion, or a rejection carrying an optional `error.code`. -/
inductive EngineReply where
  | ok (choices : List Choice) (model : String) (usageTokens : Nat)
  | err (code : Option String) (message : String)

/-- The two accepted shapes of `callOpenAI`'s `prompt` argument (a string, or
an array of messages as passed by the chat endpoint). -/
inductive Prompt where
  | str (s : String)
  | msgs (l : List Msg)

def serializeToolCall (tc : ToolCall) : String :=
  tc.id ++ ":" ++ tc.function.name ++ ":" ++ tc.function.arguments

/-- `JSON.stringify` on one message, modelled as a deterministic textual
encoding (no claim depends on the exact JSON surface syntax, only on the
encoding being a fixed function of the message list). -/
def serializeMsg (m : Msg) : String :=
  "[" ++ m.role ++ "|" ++ m.content.getD "null" ++ "|" ++
    String.intercalate "," (m.tool_calls.map serializeToolCall) ++ "|" ++
    m.tool_call_id.getD "null" ++ "|" ++ m.name.getD "null" ++ "]"

def serializeMsgs (l : List Msg) : String :=
  String.intercalate "," (l.map serializeMsg)

/-- The cache-key computation at the top of `callOpenAI` (openai.service.js
lines 33-42): a string prompt is hashed directly, a message-list prompt is
serialized first; either way the key is `generateCacheKey`. -/
def callOpenAIKey (hash : String → String) (prompt : Prompt) (agentType : String) : String :=
  match prompt with
  | .str s => generateCacheKey hash s agentType
  | .msgs l => generateCacheKey hash (serializeMsgs l) agentType

/-- Fallback text for the `"chat"` agent family (typographic apostrophes). -/
def chatFallbackText : String :=
  "Je suis désolé, mais je rencontre des difficultés techniques pour traiter votre demande. Essayez de reformuler votre question ou contactez l’équipe technique si le problème persiste."

def opsFallbackText : String :=
  "Je rencontre actuellement des difficultés techniques. Veuillez vérifier:\n\n• L’état des services critiques\n• Les métriques de base (CPU, mémoire, stockage)\n• Les logs d’erreur récents\n\nContactez l’équipe technique si le problème persiste."

/-- The stringified degraded dashboard JSON. -/
def dashboardFallbackText : String :=
  "\x7b\"dashboard\":\x7b\"title\":\"Dashboard par défaut\",\"description\":\"Configuration générée en mode dégradé\",\"layout\":\"grid\",\"blocks\":[\x7b\"id\":\"default-metric\",\"type\":\"metric\",\"title\":\"Métriques système\",\"position\":\x7b\"x\":0,\"y\":0,\"w\":6,\"h\":3\x7d,\"config\":\x7b\"metric\":\"cpu_usage\"\x7d,\"datasource\":\"prometheus\"\x7d]\x7d,\"recommendations\":[\"Vérifiez la configuration des métriques\"],\"explanation\":\"Dashboard généré en mode dégradé suite à une erreur API\"\x7d"

def quickStatusFallbackText : String :=
  "Statut système: Indisponible. Impossible d’accéder aux métriques en temps réel. Veuillez vérifier manuellement l’état des services ou réessayer ultérieurement."

def perfInsightsFallbackText : String :=
  "Analyse de performance indisponible. Le service de métriques semble inaccessible. Vérifiez l’état des services et les connexions réseau avant de réessayer."

def fallbackChat : CallResult := { content := some chatFallbackText, fallback := true }
def fallbackOps : CallResult := { content := some opsFallbackText, fallback := true }
def fallbackDashboard : CallResult := { content := some dashboardFallbackText, fallback := true }
def fallbackQuickStatus : CallResult := { content := some quickStatusFallbackText, fallback := true }
def fallbackPerformanceInsights : CallResult := { content := some perfInsightsFallbackText, fallback := true }

/-- `OpenAIService.getFallbackResponse` (lines 269-328): exact-key table
lookup first, then the `includes('chat')` / `includes('dashboard')` substring
fallbacks, defaulting to the opsAssistant text. -/
def getFallbackResponse (agentType : String) : CallResult :=
  if agentType == "dashboard" then fallbackDashboard
  else if agentType == "opsAssistant" then fallbackOps
  else if agentType == "chat" then fallbackChat
  else if agentType == "quick-status" then fallbackQuickStatus
  else if agentType == "performance-insights" then fallbackPerformanceInsights
  else if strIncludes agentType "chat" then fallbackChat
  else if strIncludes agentType "dashboard" then fallbackDashboard
  else fallbackOps

/-- Outcome of one `callOpenAI` invocation: a resolved value together with the
cache state after the call, or a raised error. -/
inductive CallOutcome where
  | ok (r : CallResult) (st : CacheState)
  | thrown (msg : String)
deriving DecidableEq

/-- `OpenAIService.callOpenAI(prompt, agentType, options)` (lines 28-169).
`useCache` is the `USE_CACHE` flag, `cacheTTL` is `options.cacheTTL`
(defaulting to 3600), `reply` resolves the external SDK call, `now` stands for
`new Date()`.  On a cache hit the cached value is returned as-is.  A reply
with no usable choice raises `'Réponse OpenAI invalide'` inside the `try`,
which the service's own `catch` turns into the fallback (no `error.code`
matches).  Coded `rate_limit_exceeded` / `insufficient_quota` /
`invalid_request_error` failures are RETHROWN; every other failure returns
`getFallbackResponse`. -/
def callOpenAI (hash : String → String) (useCache : Bool) (st : CacheState)
    (prompt : Prompt) (agentType : String) (cacheTTL : Option Nat)
    (reply : EngineReply) (now : Nat) : CallOutcome :=
  let cacheKey := callOpenAIKey hash prompt agentType
  match (if useCache then aiCacheGet st cacheKey else none) with
  | some cached => .ok cached st
  | none =>
    match reply with
    | .ok choices mdl usageTokens =>
      match choices.head? with
      | none => .ok (getFallbackResponse agentType) st
      | some c0 =>
        let result : CallResult :=
          { content := c0.message.content
            choices := choices
            model := some mdl
            usage := some usageTokens
            timestamp := some now
            agentType := some agentType }
        let st2 := if useCache then aiCacheSet st cacheKey result (cacheTTL.getD 3600) else st
        .ok result st2
    | .err code message =>
      if code == some "rate_limit_exceeded" then
        .thrown "Limite de taux API dépassée. Veuillez réessayer plus tard."
      else if code == some "insufficient_quota" then
        .thrown "Quota API insuffisant."
      else if code == some "invalid_request_error" then
        .thrown ("Requête invalide: " ++ message)
      else
        .ok (getFallbackResponse agentType) st

/-! ## The chat controller (`src/controllers/ops-assistant.controller.js`) -/

/-- One reasoning-engine invocation as seen by the chat controller: it either
resolves with the `callOpenAI` value or raises.  `σ` threads the collaborator
state (the cache for the real engine, a counter for test stubs). -/
inductive EngineStep (σ : Type) where
  | ok (r : CallResult) (st : σ)
  | thrown (msg : String)

abbrev Engine (σ : Type) := List Msg → σ → EngineStep σ

/-- Behaviour of the registered tool executors (axios-backed external
collaborators): tool name and raw `arguments` string to either a rendered
output string or a raised error message (`JSON.parse` failures included). -/
abbrev ToolEnv := String → String → Except String String

/-- The keys of the `availableTools` dispatch object (tool.service.js). -/
def availableToolNames : List String :=
  ["prometheusQuery", "prometheusRangeQuery", "getServiceHealth",
   "getActiveAlerts", "generateDashboard", "analyzePerformance", "diagnoseIssue"]

/-- Execution of one requested tool (controller lines 781-810): look the name
up in `availableTools`; on success the output becomes the tool message
content, a raised error becomes `"Erreur: <message>"`, an unregistered name
becomes `"Erreur: outil <name> non trouvé"`; every branch tags the message
with the invocation id and the tool name. -/
def execToolCall (env : ToolEnv) (tc : ToolCall) : Msg :=
  let functionName := tc.function.name
  if availableToolNames.contains functionName then
    match env functionName tc.function.arguments with
    | .ok output =>
        { role := "tool", content := some output,
          tool_call_id := some tc.id, name := some functionName }
    | .error e =>
        { role := "tool", content := some ("Erreur: " ++ e),
          tool_call_id := some tc.id, name := some functionName }
  else
    { role := "tool",
      content := some ("Erreur: outil " ++ functionName ++ " non trouvé"),
      tool_call_id := some tc.id, name := some functionName }

/-- The fixed system instruction of `buildChatPrompt` (controller lines
99-148).  Only its fixed identity and its position at the head of every prompt
matter to the claims; the long prose body is abbreviated to its opening
sentence. -/
def chatSystemPromptText : String :=
  "You are SupervIA, an expert-level AI operations assistant for a microservices monitoring platform."

def chatSystemPrompt : Msg :=
  { role := "system", content := some chatSystemPromptText }

/-- `buildChatPrompt(history)`: `[systemPrompt, ...history]`. -/
def buildChatPrompt (history : List Msg) : List Msg :=
  chatSystemPrompt :: history

/-- `const maxToolCalls = 5` (controller line 765). -/
def maxToolCalls : Nat := 5

/-- The apologetic message substituted when the tool-call bound is reached
(controller line 822; trailing space as in the source). -/
def apologyText : String :=
  "J’ai rencontré des difficultés techniques pour répondre à votre demande. Pourriez-vous la reformuler ? "

/-- Result of the tool-calling `while` loop: the history after all rounds, the
last engine response, the final `executionCount`, the collaborator state, and
a ghost trace of the message lists sent to the engine from inside the loop. -/
structure LoopOut (σ : Type) where
  history : List Msg
  response : CallResult
  executionCount : Nat
  st : σ
  prompts : List (List Msg)

/-- The `while (responseMessage.tool_calls && responseMessage.tool_calls.length > 0
&& executionCount < maxToolCalls)` loop (controller lines 769-818).  The guard
conjunct `executionCount < maxToolCalls` is carried as the remaining budget
`fuel = maxToolCalls - executionCount` (kept in sync: `fuel` decreases exactly
when `executionCount` increments), which makes the recursion structural; the
loop is entered with `fuel = maxToolCalls` and `executionCount = 0`.  An
engine exception propagates out (caught by the controller's outer `catch`). -/
def chatLoop {σ : Type} (engine : Engine σ) (env : ToolEnv) :
    Nat → List Msg → CallResult → Nat → σ → Except String (LoopOut σ)
  | 0, history, response, executionCount, st =>
      .ok { history := history, response := response,
            executionCount := executionCount, st := st, prompts := [] }
  | fuel + 1, history, response, executionCount, st =>
      if response.tool_calls.isEmpty then
        .ok { history := history, response := response,
              executionCount := executionCount, st := st, prompts := [] }
      else
        let history2 :=
          (history ++ [{ role := "assistant", tool_calls := response.tool_calls }])
            ++ response.tool_calls.map (execToolCall env)
        let nextPrompt := buildChatPrompt history2
        match engine nextPrompt st with
        | .thrown e => .error e
        | .ok response2 st2 =>
          match chatLoop engine env fuel history2 response2 (executionCount + 1) st2 with
          | .error e => .error e
          | .ok out => .ok { out with prompts := nextPrompt :: out.prompts }

/-- The global `chatSessions` map (controller line 15), keyed solely by the
session id. -/
abbrev Sessions := List (String × List Msg)

def sessionsGet (s : Sessions) (k : String) : Option (List Msg) :=
  (s.find? (fun p => p.1 == k)).map (fun p => p.2)

def sessionsSet (s : Sessions) (k : String) (v : List Msg) : Sessions :=
  (k, v) :: s.filter (fun p => p.1 != k)

/-- The `metadata` object of a successful chat response (lines 845-850). -/
structure ChatMeta where
  messageCount : Nat
  hasContext : Bool
  cached : Bool
  toolsUsedCount : Nat
deriving DecidableEq

/-- A successful chat response (`res.json`, lines 841-851) together with the
updated session map, the collaborator state, and the ghost trace of every
message list sent to the reasoning engine during the turn. -/
structure ChatOk (σ : Type) where
  success : Bool
  sessionId : String
  assistantContent : String
  meta : ChatMeta
  sessions : Sessions
  st : σ
  prompts : List (List Msg)

/-- `OpsAssistantController.chat` (controller lines 742-860).  `sessionId` is
the caller-supplied id, `freshId` the `uuidv4()` used when it is absent.
Resolve or create the session, append the user message, send
`buildChatPrompt(history)` to the engine, run the tool loop, substitute the
apologetic text when `executionCount >= maxToolCalls`, reject a missing/empty
final content (`'Réponse OpenAI invalide'`), append the assistant message,
store the history, and answer with `success: true` plus metadata
(`cached: !!responseMessage.cached`, `toolsUsedCount: executionCount`). -/
def chat {σ : Type} (engine : Engine σ) (env : ToolEnv) (sessions : Sessions)
    (sessionId : Option String) (freshId : String) (message : String)
    (hasContext : Bool) (st : σ) : Except String (ChatOk σ) :=
  let currentSessionId := sessionId.getD freshId
  let history0 := (sessionsGet sessions currentSessionId).getD []
  let history1 := history0 ++ [{ role := "user", content := some message }]
  let prompt := buildChatPrompt history1
  match engine prompt st with
  | .thrown e => .error e
  | .ok response0 st0 =>
    match chatLoop engine env maxToolCalls history1 response0 0 st0 with
    | .error e => .error e
    | .ok out =>
      let responseMessage :=
        if maxToolCalls ≤ out.executionCount then
          { out.response with content := some apologyText }
        else out.response
      match responseMessage.content with
      | none => .error "Réponse OpenAI invalide"
      | some c =>
        if c == "" then .error "Réponse OpenAI invalide"
        else
          let history2 := out.history ++ [{ role := "assistant", content := some c }]
          .ok { success := true
                sessionId := currentSessionId
                assistantContent := c
                meta := { messageCount := (history2.length + 1) / 2
                          hasContext := hasContext
                          cached := responseMessage.cached
                          toolsUsedCount := out.executionCount }
                sessions := sessionsSet sessions currentSessionId history2
                st := out.st
                prompts := prompt :: out.prompts }

/-- The engine actually wired into the chat endpoint:
`openAIService.callOpenAI(prompt, `chat-${userId}`, options)` with no
`cacheTTL` option; `oracle` resolves each raw SDK call. -/
def openAIEngine (hash : String → String) (useCache : Bool) (userId : String)
    (oracle : List Msg → CacheState → EngineReply) (now : Nat) : Engine CacheState :=
  fun msgs st =>
    match callOpenAI hash useCache st (.msgs msgs) ("chat-" ++ userId) none (oracle msgs st) now with
    | .ok r st2 => .ok r st2
    | .thrown e => .thrown e

/-- Test stub engine: the first invocation resolves with `first`, every later
invocation with `second` (the state counts invocations). -/
def twoStepEngine (first second : CallResult) : Engine Nat :=
  fun _ n => .ok (if n = 0 then first else second) (n + 1)

/-! ## Helper lemmas -/

/-- The shape every value resolved by `callOpenAI` has: no top-level
`tool_calls` field and no top-level `cached` field (neither the success
result, the fallback objects, nor any value the service itself stored in the
cache ever sets them). -/
def ResultWF (r : CallResult) : Prop :=
  r.tool_calls = [] ∧ r.cached = false

/-- Every value stored in the cache is well-formed.  This is an invariant of
all reachable cache states, since `aiCache.set` is only called with success
results. -/
def CacheWF (st : CacheState) : Prop :=
  ∀ p ∈ st, ResultWF p.2

theorem cacheWF_nil : CacheWF [] := by
  intro p hp
  exact absurd hp (List.not_mem_nil p)

theorem fallback_resultWF (a : String) : ResultWF (getFallbackResponse a) := by
  unfold getFallbackResponse
  repeat' split
  all_goals exact ⟨rfl, rfl⟩

theorem fallback_content_ne (a : String) :
    ∃ c, (getFallbackResponse a).content = some c ∧ (c == "") = false := by
  unfold getFallbackResponse
  repeat' split
  all_goals exact ⟨_, rfl, by decide⟩

theorem cacheWF_lookup {st : CacheState} {k : String} {v : CallResult}
    (hwf : CacheWF st) (h : cacheLookup st k = some v) : ResultWF v := by
  unfold cacheLookup at h
  cases hf : st.find? (fun p => p.1 == k) with
  | none => rw [hf] at h; simp at h
  | some p =>
    rw [hf] at h
    simp only [Option.map_some'] at h
    injection h with h2
    exact h2 ▸ hwf p (List.mem_of_find?_eq_some hf)

theorem cacheWF_set {st : CacheState} {k : String} {v : CallResult} {ttl : Nat}
    (hwf : CacheWF st) (hv : ResultWF v) : CacheWF (aiCacheSet st k v ttl) := by
  intro p hp
  unfold aiCacheSet redisSetEx cacheErase at hp
  rcases List.mem_cons.mp hp with h | h
  · rw [h]
    exact hv
  · exact hwf p (List.mem_of_mem_filter h)

/-- Any value resolved by `callOpenAI` from a well-formed cache is well-formed
and leaves the cache well-formed. -/
theorem callOpenAI_resultWF (hash : String → String) (useCache : Bool)
    (st : CacheState) (prompt : Prompt) (agentType : String)
    (cacheTTL : Option Nat) (reply : EngineReply) (now : Nat)
    (hwf : CacheWF st) :
    ∀ r st2, callOpenAI hash useCache st prompt agentType cacheTTL reply now = .ok r st2 →
      ResultWF r ∧ CacheWF st2 := by
  intro r st2 h
  cases hcc : (if useCache then aiCacheGet st (callOpenAIKey hash prompt agentType) else none) with
  | some cached =>
    simp only [callOpenAI, hcc] at h
    cases h
    cases useCache with
    | false => simp at hcc
    | true =>
      simp only [if_true] at hcc
      exact ⟨cacheWF_lookup hwf hcc, hwf⟩
  | none =>
    cases reply with
    | ok choices mdl usageTokens =>
      cases hh : choices.head? with
      | none =>
        simp only [callOpenAI, hcc, hh] at h
        cases h
        exact ⟨fallback_resultWF agentType, hwf⟩
      | some c0 =>
        simp only [callOpenAI, hcc, hh] at h
        cases h
        refine ⟨⟨rfl, rfl⟩, ?_⟩
        cases useCache with
        | false => exact hwf
        | true => exact cacheWF_set hwf ⟨rfl, rfl⟩
    | err code message =>
      simp only [callOpenAI, hcc] at h
      split at h
      · cases h
      · split at h
        · cases h
        · split at h
          · cases h
          · cases h
            exact ⟨fallback_resultWF agentType, hwf⟩

/-- When the engine's response requests no tools, the loop exits at once. -/
theorem chatLoop_no_tools {σ : Type} (engine : Engine σ) (env : ToolEnv)
    (fuel : Nat) (history : List Msg) (response : CallResult) (ec : Nat)
    (st : σ) (h : response.tool_calls = []) :
    chatLoop engine env fuel history response ec st =
      .ok { history := history, response := response, executionCount := ec,
            st := st, prompts := [] } := by
  cases fuel with
  | zero => rfl
  | succ n => simp [chatLoop, h]

/-- Against a pure engine that always requests tools, the loop consumes its
whole budget: it performs exactly `fuel` more rounds and stops. -/
theorem chatLoop_always_tools (e : List Msg → CallResult)
    (he : ∀ msgs, (e msgs).tool_calls ≠ []) (env : ToolEnv) :
    ∀ (fuel : Nat) (history : List Msg) (response : CallResult) (ec : Nat),
      response.tool_calls ≠ [] →
      ∃ out : LoopOut Unit,
        chatLoop (fun msgs _ => .ok (e msgs) ()) env fuel history response ec () = .ok out ∧
        out.executionCount = ec + fuel ∧ out.response.tool_calls ≠ [] := by
  intro fuel
  induction fuel with
  | zero =>
    intro history response ec h
    exact ⟨_, rfl, (Nat.add_zero ec).symm, h⟩
  | succ n ih =>
    intro history response ec h
    have hne : response.tool_calls.isEmpty = false := by
      cases hr : response.tool_calls with
      | nil => exact absurd hr h
      | cons a as => rfl
    obtain ⟨out, ho, hec, htc⟩ := ih
      ((history ++ [{ role := "assistant", tool_calls := response.tool_calls }])
        ++ response.tool_calls.map (execToolCall env))
      (e (buildChatPrompt ((history ++ [{ role := "assistant", tool_calls := response.tool_calls }])
        ++ response.tool_calls.map (execToolCall env))))
      (ec + 1) (he _)
    refine ⟨{ out with prompts :=
        buildChatPrompt ((history ++ [{ role := "assistant", tool_calls := response.tool_calls }])
          ++ response.tool_calls.map (execToolCall env)) :: out.prompts }, ?_, ?_, htc⟩
    · simp only [chatLoop, hne]
      rw [if_neg Bool.false_ne_true, ho]
    · simp only [hec]
      omega

/-- C1: the chat tool-calling loop terminates.  Against a reasoning engine
that always requests tool calls, `chat` performs exactly
`maxToolCalls = 5` rounds, substitutes the single apologetic assistant
message as the final content, and still returns a structurally successful
(`success: true`) response. -/
theorem C1_loop_bounded (e : List Msg → CallResult)
    (he : ∀ msgs, (e msgs).tool_calls ≠ []) (env : ToolEnv)
    (sessions : Sessions) (sid : Option String) (freshId message : String)
    (hc : Bool) :
    ∃ out : ChatOk Unit,
      chat (fun msgs _ => .ok (e msgs) ()) env sessions sid freshId message hc () = .ok out ∧
      out.success = true ∧ out.assistantContent = apologyText ∧
      out.meta.toolsUsedCount = maxToolCalls := by
  obtain ⟨out, ho, hec, _⟩ := chatLoop_always_tools e he env maxToolCalls
    (((sessionsGet sessions (sid.getD freshId)).getD []) ++
      [{ role := "user", content := some message }])
    (e (buildChatPrompt (((sessionsGet sessions (sid.getD freshId)).getD []) ++
      [{ role := "user", content := some message }])))
    0 (he _)
  have hec5 : out.executionCount = maxToolCalls := by
    omega
  have hap : (apologyText == "") = false := by decide
  unfold chat
  simp only [ho, hec5, le_refl, if_true, hap, Bool.false_eq_true, if_false]
  exact ⟨_, rfl, rfl, rfl, rfl⟩

def c1StubResult : CallResult :=
  { tool_calls := [⟨"t1", ⟨"getServiceHealth", "arg"⟩⟩] }

def c1StubEnv : ToolEnv := fun _ _ => .ok "healthy"

/-- C1 witness: the loop-bound theorem at a concrete always-requesting stub. -/
theorem C1_loop_bounded_witness :
    ∃ out : ChatOk Unit,
      chat (fun _ _ => .ok c1StubResult ()) c1StubEnv [] (some "s1") "f" "hello" false () = .ok out ∧
      out.success = true ∧ out.assistantContent = apologyText ∧
      out.meta.toolsUsedCount = maxToolCalls :=
  C1_loop_bounded (fun _ => c1StubResult)
    (fun _ => by show c1StubResult.tool_calls ≠ []; decide) c1StubEnv [] (some "s1") "f"
    "hello" false

/-- Every `openAIEngine` step from a well-formed cache either raises or
resolves with a well-formed value and a well-formed cache. -/
theorem openAIEngine_wf (hash : String → String) (useCache : Bool)
    (userId : String) (oracle : List Msg → CacheState → EngineReply)
    (now : Nat) (msgs : List Msg) (st : CacheState) (hwf : CacheWF st) :
    (∃ e, openAIEngine hash useCache userId oracle now msgs st = .thrown e) ∨
    (∃ r st2, openAIEngine hash useCache userId oracle now msgs st = .ok r st2 ∧
      ResultWF r ∧ CacheWF st2) := by
  unfold openAIEngine
  cases hcall : callOpenAI hash useCache st (.msgs msgs) ("chat-" ++ userId) none
      (oracle msgs st) now with
  | thrown e => exact .inl ⟨e, rfl⟩
  | ok r st2 =>
    exact .inr ⟨r, st2, rfl,
      callOpenAI_resultWF hash useCache st (.msgs msgs) ("chat-" ++ userId) none
        (oracle msgs st) now hwf r st2 hcall⟩

/-- C2 counterexample: on an engine failure with no recognised `error.code`
(the network/timeout class), `callOpenAI` resolves with the fallback object:
its top-level fields are only `content` and `fallback` — `choices`, `model`,
`usage`, `timestamp` and `agentType` are all absent — refuting the claimed
field enumeration. -/
theorem C2_counterexample :
    callOpenAI id true [] (.msgs [{ role := "user", content := some "hi" }])
        "chat-anonymous-dev" none (.err none "network error") 0 =
      .ok (getFallbackResponse "chat-anonymous-dev") [] ∧
    (getFallbackResponse "chat-anonymous-dev").choices = [] ∧
    (getFallbackResponse "chat-anonymous-dev").model = none ∧
    (getFallbackResponse "chat-anonymous-dev").usage = none ∧
    (getFallbackResponse "chat-anonymous-dev").timestamp = none ∧
    (getFallbackResponse "chat-anonymous-dev").agentType = none ∧
    (getFallbackResponse "chat-anonymous-dev").fallback = true :=
  ⟨rfl, rfl, rfl, rfl, rfl, rfl, rfl⟩

/-- C2 (amended): every value `callOpenAI` resolves with — the six-field
success object, a cache hit, or the `{content, fallback}` fallback — carries
no top-level `tool_calls`, so the chat loop guard is never truthy: in every
successful chat turn driven by the real engine the reasoning engine is
invoked exactly once, the session history is extended by exactly the user
message and the assistant message (never a tool-request or tool-role
message), and `metadata.toolsUsedCount = 0`. -/
theorem C2_no_tool_rounds (hash : String → String) (useCache : Bool)
    (userId : String) (oracle : List Msg → CacheState → EngineReply)
    (now : Nat) (env : ToolEnv) (sessions : Sessions) (sid : Option String)
    (freshId message : String) (hc : Bool) (st : CacheState)
    (hwf : CacheWF st) (out : ChatOk CacheState)
    (h : chat (openAIEngine hash useCache userId oracle now) env sessions sid
        freshId message hc st = .ok out) :
    out.meta.toolsUsedCount = 0 ∧
    out.prompts = [buildChatPrompt (((sessionsGet sessions (sid.getD freshId)).getD []) ++
      [{ role := "user", content := some message }])] ∧
    out.sessions = sessionsSet sessions (sid.getD freshId)
      (((sessionsGet sessions (sid.getD freshId)).getD []) ++
        [{ role := "user", content := some message },
         { role := "assistant", content := some out.assistantContent }]) := by
  simp only [chat] at h
  rcases openAIEngine_wf hash useCache userId oracle now
      (buildChatPrompt (((sessionsGet sessions (sid.getD freshId)).getD []) ++
        [{ role := "user", content := some message }])) st hwf with
    ⟨e, he⟩ | ⟨r, st2, hok, hwr, _⟩
  · rw [he] at h
    simp at h
  · rw [hok] at h
    simp only [] at h
    rw [chatLoop_no_tools _ env maxToolCalls _ _ _ _ hwr.1] at h
    simp only [] at h
    rw [if_neg (by decide : ¬ (maxToolCalls ≤ 0))] at h
    cases hc0 : r.content with
    | none => rw [hc0] at h; simp at h
    | some c =>
      rw [hc0] at h
      simp only [] at h
      cases hce : c == "" with
      | true => rw [hce] at h; simp at h
      | false =>
        rw [hce] at h
        simp only [Bool.false_eq_true, if_false] at h
        injection h with h2
        subst h2
        refine ⟨rfl, rfl, ?_⟩
        simp

def c2wChoice : Choice := ⟨{ content := some "Bonjour" }⟩

def c2wOracle : List Msg → CacheState → EngineReply :=
  fun _ _ => .ok [c2wChoice] "gpt-4o-mini" 5

/-- A tool environment in which every executor raises (never reached by the
claims that use it). -/
def noToolEnv : ToolEnv := fun _ _ => .error "no tools"

def c2wResult : CallResult :=
  { content := some "Bonjour", choices := [c2wChoice], model := some "gpt-4o-mini",
    usage := some 5, timestamp := some 0, agentType := some "chat-anonymous-dev" }

def c2wKey : String :=
  callOpenAIKey id (.msgs (buildChatPrompt [{ role := "user", content := some "hello" }]))
    "chat-anonymous-dev"

def c2wOut : ChatOk CacheState :=
  { success := true
    sessionId := "s1"
    assistantContent := "Bonjour"
    meta := { messageCount := 1, hasContext := false, cached := false, toolsUsedCount := 0 }
    sessions := [("s1", [{ role := "user", content := some "hello" },
                         { role := "assistant", content := some "Bonjour" }])]
    st := [(c2wKey, c2wResult)]
    prompts := [buildChatPrompt [{ role := "user", content := some "hello" }]] }

/-- C2 witness: the amended theorem at a concrete turn. -/
theorem C2_no_tool_rounds_witness :
    c2wOut.meta.toolsUsedCount = 0 ∧
    c2wOut.prompts = [buildChatPrompt ([] ++ [{ role := "user", content := some "hello" }])] ∧
    c2wOut.sessions = sessionsSet [] "s1"
      ([] ++ [{ role := "user", content := some "hello" },
              { role := "assistant", content := some c2wOut.assistantContent }]) :=
  C2_no_tool_rounds id true "anonymous-dev" c2wOracle 0 noToolEnv [] (some "s1") "f" "hello"
    false [] cacheWF_nil c2wOut (by rfl)

theorem fallback_flag (a : String) : (getFallbackResponse a).fallback = true := by
  unfold getFallbackResponse
  repeat' split
  all_goals rfl

/-- C3 counterexample: a `rate_limit_exceeded` failure (the spec's
`RateLimited` class) is RETHROWN by `callOpenAI`, and the chat turn propagates
it to the caller as an error instead of recovering through the fallback
provider — refuting "the turn still succeeds for all three failure
classes". -/
theorem C3_counterexample :
    chat (openAIEngine id true "anonymous-dev"
        (fun _ _ => .err (some "rate_limit_exceeded") "429 Too Many Requests") 0)
      noToolEnv [] (some "s1") "f" "hello" false [] =
      .error "Limite de taux API dépassée. Veuillez réessayer plus tard." := by
  rfl

/-- C3 (amended): only failures outside the three coded classes
(`rate_limit_exceeded`, `insufficient_quota`, `invalid_request_error`) — i.e.
the `EngineUnavailable` network/timeout class — are recovered: on a cache
miss the orchestrator returns the FallbackProvider's degraded agent-specific
text and the turn still succeeds (`success: true`, not flagged cached, no
tool round); the rate-limited and quota classes are instead rethrown
(`C3_counterexample`). -/
theorem C3_fallback_on_unavailable (hash : String → String) (useCache : Bool)
    (userId : String) (code : Option String) (emsg : String) (now : Nat)
    (env : ToolEnv) (sessions : Sessions) (sid : Option String)
    (freshId message : String) (hc : Bool) (st : CacheState)
    (h1 : code ≠ some "rate_limit_exceeded")
    (h2 : code ≠ some "insufficient_quota")
    (h3 : code ≠ some "invalid_request_error")
    (hmiss : aiCacheGet st (callOpenAIKey hash
        (.msgs (buildChatPrompt (((sessionsGet sessions (sid.getD freshId)).getD []) ++
          [{ role := "user", content := some message }]))) ("chat-" ++ userId)) = none) :
    ∃ out : ChatOk CacheState,
      chat (openAIEngine hash useCache userId (fun _ _ => .err code emsg) now) env
        sessions sid freshId message hc st = .ok out ∧
      out.success = true ∧
      some out.assistantContent = (getFallbackResponse ("chat-" ++ userId)).content ∧
      (getFallbackResponse ("chat-" ++ userId)).fallback = true ∧
      out.meta.cached = false ∧ out.meta.toolsUsedCount = 0 := by
  obtain ⟨c, hcont, hcne⟩ := fallback_content_ne ("chat-" ++ userId)
  have hb1 : (code == some "rate_limit_exceeded") = false := by simp [h1]
  have hb2 : (code == some "insufficient_quota") = false := by simp [h2]
  have hb3 : (code == some "invalid_request_error") = false := by simp [h3]
  have hstep : openAIEngine hash useCache userId (fun _ _ => .err code emsg) now
      (buildChatPrompt (((sessionsGet sessions (sid.getD freshId)).getD []) ++
        [{ role := "user", content := some message }])) st =
      .ok (getFallbackResponse ("chat-" ++ userId)) st := by
    unfold openAIEngine callOpenAI
    cases useCache with
    | false => simp [hb1, hb2, hb3]
    | true => simp [hmiss, hb1, hb2, hb3]
  simp only [chat]
  rw [hstep]
  simp only []
  rw [chatLoop_no_tools _ env maxToolCalls _ _ _ _ (fallback_resultWF _).1]
  simp only []
  rw [if_neg (by decide : ¬ (maxToolCalls ≤ 0))]
  rw [hcont]
  simp only []
  rw [hcne]
  rw [if_neg Bool.false_ne_true]
  exact ⟨_, rfl, rfl, rfl, fallback_flag _, (fallback_resultWF _).2, rfl⟩

/-- C3 witness: the amended theorem at a concrete network-failure turn. -/
theorem C3_fallback_on_unavailable_witness :
    ∃ out : ChatOk CacheState,
      chat (openAIEngine id true "anonymous-dev" (fun _ _ => .err none "ECONNREFUSED") 0)
        noToolEnv [] (some "s1") "f" "hello" false [] = .ok out ∧
      out.success = true ∧
      some out.assistantContent = (getFallbackResponse ("chat-" ++ "anonymous-dev")).content ∧
      (getFallbackResponse ("chat-" ++ "anonymous-dev")).fallback = true ∧
      out.meta.cached = false ∧ out.meta.toolsUsedCount = 0 :=
  C3_fallback_on_unavailable id true "anonymous-dev" none "ECONNREFUSED" 0 noToolEnv []
    (some "s1") "f" "hello" false [] (by decide) (by decide) (by decide) rfl

def c4Value : CallResult := { content := some "v" }

/-- C4 counterexample: after `set(k, v, ttl = 60)`, a read at simulated time
`now = 100` (well past the 60 s expiry instant) still returns `v`, not a
Miss: the memory-mode `setEx` discards the TTL, so entries outlive their
supplied expiry. -/
theorem C4_counterexample :
    aiCacheGetAt (aiCacheSet [] "ai:test:k" c4Value 60) 100 "ai:test:k" = some c4Value ∧
    aiCacheGetAt (aiCacheSet [] "ai:test:k" c4Value 60) 100 "ai:test:k" ≠ none :=
  ⟨rfl, by decide⟩

/-- C4 (amended): immediately after `set(k, v, ttl)` a `get(k)` returns `v`;
but the entry never expires — a read at EVERY simulated instant still
returns `v`, whatever TTL was supplied (the in-memory store keeps no expiry
instant). -/
theorem C4_no_expiry (st : CacheState) (k : String) (v : CallResult)
    (ttl now : Nat) :
    aiCacheGetAt (aiCacheSet st k v ttl) now k = some v := by
  simp [aiCacheGetAt, aiCacheGet, aiCacheSet, redisSetEx, redisGet, cacheLookup]

def c5Prompt : List Msg := buildChatPrompt [{ role := "user", content := some "hello" }]

def c5Key : String := callOpenAIKey id (.msgs c5Prompt) "chat-anonymous-dev"

def c5Stored : CallResult :=
  { content := some "cached answer", choices := [⟨{ content := some "cached answer" }⟩],
    model := some "gpt-4o-mini", usage := some 10, timestamp := some 0,
    agentType := some "chat-anonymous-dev" }

set_option maxRecDepth 10000 in
/-- C5: evaluation at the failing input.  The cache holds the entry for this
exact turn and the assistant answer is served verbatim from it (the engine
oracle, if it were consulted, would fail), yet `metadata.cached` is `false`:
on a hit `callOpenAI` returns the stored object unchanged, no code path ever
sets a top-level `cached: true`, and the controller computes
`cached: !!responseMessage.cached`. -/
theorem C5_cached_flag_bug :
    ∃ out : ChatOk CacheState,
      chat (openAIEngine id true "anonymous-dev" (fun _ _ => .err none "engine down") 0)
        noToolEnv [] (some "s1") "f" "hello" false [(c5Key, c5Stored)] = .ok out ∧
      out.assistantContent = "cached answer" ∧ out.meta.cached = false :=
  ⟨_, rfl, rfl, rfl⟩

/-- Unfolding equation for one round of the tool loop. -/
theorem chatLoop_succ {σ : Type} (engine : Engine σ) (env : ToolEnv)
    (fuel : Nat) (history : List Msg) (response : CallResult) (ec : Nat) (st : σ)
    (h : response.tool_calls.isEmpty = false) :
    chatLoop engine env (fuel + 1) history response ec st =
      match engine (buildChatPrompt ((history ++ [{ role := "assistant", tool_calls := response.tool_calls }])
          ++ response.tool_calls.map (execToolCall env))) st with
      | .thrown e => .error e
      | .ok response2 st2 =>
        match chatLoop engine env fuel ((history ++ [{ role := "assistant", tool_calls := response.tool_calls }])
            ++ response.tool_calls.map (execToolCall env)) response2 (ec + 1) st2 with
        | .error e => .error e
        | .ok out =>
          .ok { out with
                prompts := buildChatPrompt
                    ((history ++ [{ role := "assistant", tool_calls := response.tool_calls }])
                      ++ response.tool_calls.map (execToolCall env)) :: out.prompts } := by
  simp only [chatLoop, h]
  rw [if_neg Bool.false_ne_true]

/-- C6: tool isolation within one round.  When the engine requests two sibling
tool invocations and one executor raises while the other succeeds, the round
still completes: the failing invocation yields a tool message whose content
encodes the error, the succeeding one keeps its output intact, both are
tagged with their invocation id and tool name, both are part of the message
list sent to the next reasoning-engine call, and the turn finishes
successfully after that single round. -/
theorem C6_tool_isolation (env : ToolEnv) (t1 t2 : ToolCall)
    (e s finalText message : String)
    (h1 : availableToolNames.contains t1.function.name = true)
    (h2 : availableToolNames.contains t2.function.name = true)
    (hfail : env t1.function.name t1.function.arguments = .error e)
    (hok : env t2.function.name t2.function.arguments = .ok s)
    (hft : (finalText == "") = false) :
    ∃ (out : ChatOk Nat) (p : List Msg),
      chat (twoStepEngine { tool_calls := [t1, t2] } { content := some finalText })
          env [] (some "s1") "f" message false 0 = .ok out ∧
      out.meta.toolsUsedCount = 1 ∧
      out.assistantContent = finalText ∧
      out.prompts = [buildChatPrompt [{ role := "user", content := some message }], p] ∧
      ({ role := "tool", content := some ("Erreur: " ++ e),
         tool_call_id := some t1.id, name := some t1.function.name } : Msg) ∈ p ∧
      ({ role := "tool", content := some s,
         tool_call_id := some t2.id, name := some t2.function.name } : Msg) ∈ p := by
  have he1 : execToolCall env t1 =
      { role := "tool", content := some ("Erreur: " ++ e),
        tool_call_id := some t1.id, name := some t1.function.name } := by
    simp only [execToolCall]
    rw [h1, if_pos rfl, hfail]
  have he2 : execToolCall env t2 =
      { role := "tool", content := some s,
        tool_call_id := some t2.id, name := some t2.function.name } := by
    simp only [execToolCall]
    rw [h2, if_pos rfl, hok]
  have hstep1 : ∀ P, twoStepEngine { tool_calls := [t1, t2] } { content := some finalText } P 0 =
      .ok { tool_calls := [t1, t2] } 1 := fun _ => rfl
  have hstep2 : ∀ P, twoStepEngine { tool_calls := [t1, t2] } { content := some finalText } P 1 =
      .ok { content := some finalText } 2 := fun _ => rfl
  simp only [chat]
  rw [hstep1]
  simp only []
  rw [show maxToolCalls = 4 + 1 from rfl]
  rw [chatLoop_succ _ env 4 _ ({ tool_calls := [t1, t2] } : CallResult) 0 1 rfl]
  rw [hstep2]
  simp only []
  rw [chatLoop_no_tools _ env 4 _ _ _ _ rfl]
  simp only []
  rw [if_neg (by decide : ¬ ((4 + 1 : Nat) ≤ 0 + 1))]
  simp only []
  rw [hft]
  rw [if_neg Bool.false_ne_true]
  refine ⟨_, _, rfl, rfl, rfl, rfl, ?_, ?_⟩
  · simp [buildChatPrompt, he1]
  · simp [buildChatPrompt, he2]

def c6Env : ToolEnv := fun name _ =>
  if name == "prometheusQuery" then .error "Unexpected token" else .ok "all services up"

/-- C6 witness: the isolation theorem at a concrete failing/succeeding pair. -/
theorem C6_tool_isolation_witness :
    ∃ (out : ChatOk Nat) (p : List Msg),
      chat (twoStepEngine
          { tool_calls := [⟨"id1", ⟨"prometheusQuery", "bad"⟩⟩, ⟨"id2", ⟨"getServiceHealth", ""⟩⟩] }
          { content := some "Voilà." }) c6Env [] (some "s1") "f" "status?" false 0 = .ok out ∧
      out.meta.toolsUsedCount = 1 ∧
      out.assistantContent = "Voilà." ∧
      out.prompts = [buildChatPrompt [{ role := "user", content := some "status?" }], p] ∧
      ({ role := "tool", content := some ("Erreur: " ++ "Unexpected token"),
         tool_call_id := some "id1", name := some "prometheusQuery" } : Msg) ∈ p ∧
      ({ role := "tool", content := some "all services up",
         tool_call_id := some "id2", name := some "getServiceHealth" } : Msg) ∈ p :=
  C6_tool_isolation c6Env ⟨"id1", ⟨"prometheusQuery", "bad"⟩⟩ ⟨"id2", ⟨"getServiceHealth", ""⟩⟩
    "Unexpected token" "all services up" "Voilà." "status?" (by decide) (by decide) rfl rfl
    (by decide)

/-- Characterisation of a turn whose single engine step resolves with a
no-tools, nonempty-content response: one engine invocation, zero tool rounds,
user and assistant messages appended. -/
theorem chat_simple_turn {σ : Type} (engine : Engine σ) (env : ToolEnv)
    (sessions : Sessions) (sid : Option String) (freshId message : String)
    (hc : Bool) (st : σ) (r : CallResult) (st0 : σ) (c : String)
    (hstep : engine (buildChatPrompt (((sessionsGet sessions (sid.getD freshId)).getD []) ++
        [{ role := "user", content := some message }])) st = .ok r st0)
    (htc : r.tool_calls = []) (hcont : r.content = some c) (hne : (c == "") = false) :
    chat engine env sessions sid freshId message hc st =
      .ok { success := true
            sessionId := sid.getD freshId
            assistantContent := c
            meta := { messageCount := ((((sessionsGet sessions (sid.getD freshId)).getD []) ++
                        [({ role := "user", content := some message } : Msg)] ++
                        [({ role := "assistant", content := some c } : Msg)]).length + 1) / 2
                      hasContext := hc
                      cached := r.cached
                      toolsUsedCount := 0 }
            sessions := sessionsSet sessions (sid.getD freshId)
              (((sessionsGet sessions (sid.getD freshId)).getD []) ++
                [{ role := "user", content := some message }] ++
                [{ role := "assistant", content := some c }])
            st := st0
            prompts := [buildChatPrompt (((sessionsGet sessions (sid.getD freshId)).getD []) ++
              [{ role := "user", content := some message }])] } := by
  simp only [chat]
  rw [hstep]
  simp only []
  rw [chatLoop_no_tools _ env maxToolCalls _ _ _ _ htc]
  simp only []
  rw [if_neg (by decide : ¬ (maxToolCalls ≤ 0))]
  rw [hcont]
  simp only []
  rw [hne, if_neg Bool.false_ne_true]

/-- C7: session continuity.  For two consecutive `chat` calls with the same
session id, the message list sent to the reasoning engine on the second call
is the fixed system instruction followed by both prior turns' messages and
the new user message, in original insertion order. -/
theorem C7_session_continuity (r1 r2 : CallResult) (c1 c2 m1 m2 : String)
    (env : ToolEnv)
    (h1 : r1.tool_calls = []) (hc1 : r1.content = some c1) (hne1 : (c1 == "") = false)
    (h2 : r2.tool_calls = []) (hc2 : r2.content = some c2) (hne2 : (c2 == "") = false) :
    ∃ (out1 out2 : ChatOk Unit),
      chat (fun _ _ => .ok r1 ()) env [] (some "s1") "f1" m1 false () = .ok out1 ∧
      chat (fun _ _ => .ok r2 ()) env out1.sessions (some "s1") "f2" m2 false () = .ok out2 ∧
      out1.assistantContent = c1 ∧
      out2.prompts = [[chatSystemPrompt,
        { role := "user", content := some m1 },
        { role := "assistant", content := some c1 },
        { role := "user", content := some m2 }]] := by
  have ht1 := chat_simple_turn (fun _ (_ : Unit) => .ok r1 ()) env [] (some "s1") "f1" m1
    false () r1 () c1 rfl h1 hc1 hne1
  have ht2 := chat_simple_turn (fun _ (_ : Unit) => .ok r2 ()) env
    (sessionsSet [] "s1" (([] ++ [{ role := "user", content := some m1 }]) ++
      [{ role := "assistant", content := some c1 }]))
    (some "s1") "f2" m2 false () r2 () c2 rfl h2 hc2 hne2
  exact ⟨_, _, ht1, ht2, rfl, rfl⟩

/-- C7 witness: the continuity theorem at two concrete turns. -/
theorem C7_session_continuity_witness :
    ∃ (out1 out2 : ChatOk Unit),
      chat (fun _ _ => .ok ({ content := some "Bonjour!" } : CallResult) ()) noToolEnv
        [] (some "s1") "f1" "hello" false () = .ok out1 ∧
      chat (fun _ _ => .ok ({ content := some "Ensuite..." } : CallResult) ()) noToolEnv
        out1.sessions (some "s1") "f2" "and then?" false () = .ok out2 ∧
      out1.assistantContent = "Bonjour!" ∧
      out2.prompts = [[chatSystemPrompt,
        { role := "user", content := some "hello" },
        { role := "assistant", content := some "Bonjour!" },
        { role := "user", content := some "and then?" }]] :=
  C7_session_continuity { content := some "Bonjour!" } { content := some "Ensuite..." }
    "Bonjour!" "Ensuite..." "hello" "and then?" noToolEnv rfl rfl (by decide) rfl rfl
    (by decide)

/-- C10: chat sessions live in one global map keyed solely by the
caller-supplied session id, with no binding to the authenticated principal:
when a second turn arrives on the same session id on behalf of ANY other
user (the user id only flavours the cache agent type, never the session
lookup), it reads and extends the first user's history, so the second user's
reasoning-engine call includes the first user's messages. -/
theorem C10_session_shared_across_users (hash : String → String)
    (userA userB m1 m2 c1 c2 modelA modelB : String) (uA uB now1 now2 : Nat)
    (env : ToolEnv)
    (hne1 : (c1 == "") = false) (hne2 : (c2 == "") = false) :
    ∃ (out1 out2 : ChatOk CacheState),
      chat (openAIEngine hash false userA
          (fun _ _ => .ok [⟨{ content := some c1 }⟩] modelA uA) now1) env
        [] (some "s1") "f1" m1 false [] = .ok out1 ∧
      chat (openAIEngine hash false userB
          (fun _ _ => .ok [⟨{ content := some c2 }⟩] modelB uB) now2) env
        out1.sessions (some "s1") "f2" m2 false out1.st = .ok out2 ∧
      out2.prompts = [[chatSystemPrompt,
        { role := "user", content := some m1 },
        { role := "assistant", content := some c1 },
        { role := "user", content := some m2 }]] := by
  have ht1 := chat_simple_turn
    (openAIEngine hash false userA (fun _ _ => .ok [⟨{ content := some c1 }⟩] modelA uA) now1)
    env [] (some "s1") "f1" m1 false []
    { content := some c1, choices := [⟨{ content := some c1 }⟩], model := some modelA,
      usage := some uA, timestamp := some now1, agentType := some ("chat-" ++ userA) }
    [] c1 rfl rfl rfl hne1
  have ht2 := chat_simple_turn
    (openAIEngine hash false userB (fun _ _ => .ok [⟨{ content := some c2 }⟩] modelB uB) now2)
    env
    (sessionsSet [] "s1" (([] ++ [{ role := "user", content := some m1 }]) ++
      [{ role := "assistant", content := some c1 }]))
    (some "s1") "f2" m2 false []
    { content := some c2, choices := [⟨{ content := some c2 }⟩], model := some modelB,
      usage := some uB, timestamp := some now2, agentType := some ("chat-" ++ userB) }
    [] c2 rfl rfl rfl hne2
  exact ⟨_, _, ht1, ht2, rfl⟩

/-- C10 witness: two concrete turns by different authenticated users on the
same session id. -/
theorem C10_session_shared_witness :
    ∃ (out1 out2 : ChatOk CacheState),
      chat (openAIEngine id false "alice"
          (fun _ _ => .ok [⟨{ content := some "my secret report" }⟩] "gpt-4o-mini" 3) 0) noToolEnv
        [] (some "s1") "f1" "summarize my incident" false [] = .ok out1 ∧
      chat (openAIEngine id false "bob"
          (fun _ _ => .ok [⟨{ content := some "Sure." }⟩] "gpt-4o-mini" 3) 1) noToolEnv
        out1.sessions (some "s1") "f2" "continue" false out1.st = .ok out2 ∧
      out2.prompts = [[chatSystemPrompt,
        { role := "user", content := some "summarize my incident" },
        { role := "assistant", content := some "my secret report" },
        { role := "user", content := some "continue" }]] :=
  C10_session_shared_across_users id "alice" "bob" "summarize my incident" "continue"
    "my secret report" "Sure." "gpt-4o-mini" "gpt-4o-mini" 3 3 0 1 noToolEnv (by decide)
    (by decide)

/-- C8 counterexample: the chat endpoint caches under agent type
`"chat-" ++ userId` (dev default `anonymous-dev`), so the key actually passed
to the cache differs from the key function applied with agent type `"chat"`
on the same serialized message list. -/
theorem C8_counterexample :
    callOpenAIKey id (.msgs (buildChatPrompt [{ role := "user", content := some "hello" }]))
        "chat-anonymous-dev" ≠
      generateCacheKey id
        (serializeMsgs (buildChatPrompt [{ role := "user", content := some "hello" }]))
        "chat" := by
  decide

/-- C8 (amended): every reasoning-engine call inside a chat turn goes through
the response cache under `generateCacheKey` applied to the serialized full
message list and the agent type `"chat-" ++ userId` (not the bare string
`"chat"`): a hit at exactly that key is returned as-is with the cache
unchanged, and a fresh successful call writes its result at exactly that
key. -/
theorem C8_cache_key (hash : String → String) (userId : String)
    (oracle : List Msg → CacheState → EngineReply) (now : Nat)
    (msgs : List Msg) (st : CacheState) :
    (∀ r, aiCacheGet st (generateCacheKey hash (serializeMsgs msgs) ("chat-" ++ userId)) = some r →
        openAIEngine hash true userId oracle now msgs st = .ok r st) ∧
    (aiCacheGet st (generateCacheKey hash (serializeMsgs msgs) ("chat-" ++ userId)) = none →
      ∀ choices mdl u c0, oracle msgs st = .ok choices mdl u → choices.head? = some c0 →
        openAIEngine hash true userId oracle now msgs st =
          .ok { content := c0.message.content, choices := choices, model := some mdl,
                usage := some u, timestamp := some now, agentType := some ("chat-" ++ userId) }
            (aiCacheSet st (generateCacheKey hash (serializeMsgs msgs) ("chat-" ++ userId))
              { content := c0.message.content, choices := choices, model := some mdl,
                usage := some u, timestamp := some now, agentType := some ("chat-" ++ userId) }
              3600)) := by
  constructor
  · intro r hr
    unfold openAIEngine callOpenAI
    simp [callOpenAIKey, hr]
  · intro hmiss choices mdl u c0 horacle hhead
    unfold openAIEngine callOpenAI
    simp [callOpenAIKey, hmiss, horacle, hhead]

def c8wKey : String :=
  generateCacheKey id
    (serializeMsgs (buildChatPrompt [{ role := "user", content := some "ping" }]))
    "chat-anonymous-dev"

def c8wStored : CallResult := { content := some "pong" }

set_option maxRecDepth 10000 in
/-- C8 witness: a concrete hit at the `"chat-" ++ userId` key. -/
theorem C8_cache_key_witness :
    openAIEngine id true "anonymous-dev" (fun _ _ => .err none "down") 0
      (buildChatPrompt [{ role := "user", content := some "ping" }])
      [(c8wKey, c8wStored)] = .ok c8wStored [(c8wKey, c8wStored)] :=
  (C8_cache_key id "anonymous-dev" (fun _ _ => .err none "down") 0
    (buildChatPrompt [{ role := "user", content := some "ping" }])
    [(c8wKey, c8wStored)]).1 c8wStored rfl

def c9Value : CallResult := { content := some "unrelated entry" }

/-- C9: evaluation at the failing state.  `delete-key` does reject every
non-`ai:`-prefixed key without touching the store (first conjunct), but
`flush` matches stored keys against the UNANCHORED regex `/ai:.*/`: the key
`"x-ai:1"`, which does NOT start with `"ai:"` (second conjunct) and so
belongs to another namespace, merely CONTAINS `"ai:"` and is deleted by
`flush`, while `"other:key"` survives (third conjunct). -/
theorem C9_flush_escapes_namespace :
    (∀ st : CacheState, deleteKey st "session:42" = (st, DeleteKeyOutcome.rejected)) ∧
    strStartsWith "x-ai:1" "ai:" = false ∧
    aiCacheFlush [("x-ai:1", c9Value), ("other:key", c9Value)] = [("other:key", c9Value)] := by
  refine ⟨fun st => ?_, by decide, by decide⟩
  unfold deleteKey
  rw [if_pos (by decide)]

end SVIA
